import Mathlib

/-!
Financial transaction monitoring system.

A shallow embedding of the two Go services of the repository
(`user-service-1/main.go` and `user-service-2/main.go`) and the properties of
their transaction store, creation handler, event publication and routing.

Conventions of the embedding.

* The package-level variable `transactions` is threaded explicitly: every
  function that touches it takes the slice and returns the slice it leaves.
* The wall clock is an input: each call of `time.Now()` is a parameter
  holding the reading in nanoseconds since the Unix epoch.
* Library calls whose result depends on the outside world (`c.BindJSON`,
  `json.Marshal`, `WriteMessages` on a writer that exists) are parameters.
* The package-level variable `kafkaWriter` is a parameter of the functions
  that read it: `none` is the nil pointer it starts as, and only
  `initKafkaWriter` assigns it.
* `log.Printf` calls are not modelled; neither is `healthHandler`, which
  `main` does not register.
* The goroutine that `createTransaction` starts is a call whose result is
  recorded next to the response and never read by the handler. A method call
  through a nil pointer panics, and a panic in a goroutine without `recover`
  ends the process.
-/

/-! ## The Go `time` package: `Format(time.RFC3339)` in UTC and its reading back -/

namespace GoTime

/-- Gregorian leap-year rule. -/
def isLeap (year : Nat) : Bool :=
  year % 4 = 0 ∧ (year % 100 ≠ 0 ∨ year % 400 = 0)

/-- Days of the year that precede the first day of `month` (1 = January);
13 gives the length of the year. -/
def daysBefore (leap : Bool) (month : Nat) : Nat :=
  let l := if leap then 1 else 0
  if month ≤ 1 then 0
  else if month = 2 then 31
  else if month = 3 then 59 + l
  else if month = 4 then 90 + l
  else if month = 5 then 120 + l
  else if month = 6 then 151 + l
  else if month = 7 then 181 + l
  else if month = 8 then 212 + l
  else if month = 9 then 243 + l
  else if month = 10 then 273 + l
  else if month = 11 then 304 + l
  else if month = 12 then 334 + l
  else 365 + l

/-- Length of `month` in days. -/
def daysIn (leap : Bool) (month : Nat) : Nat :=
  daysBefore leap (month + 1) - daysBefore leap month

/-- Days from 0001-01-01 to the first of January of `year` (for `year ≥ 1`). -/
def daysBeforeYear (year : Nat) : Nat :=
  365 * (year - 1) + (year - 1) / 4 - (year - 1) / 100 + (year - 1) / 400

/-- Days from 0001-01-01 to 1970-01-01. -/
def unixToInternalDays : Nat := 719162

/-- Year and zero-based day of the year of the day `d` counted from
0001-01-01, by cutting off 400-, 100-, 4- and 1-year cycles. -/
def yearOfDays (d : Nat) : Nat × Nat :=
  let n400 := d / 146097
  let r := d % 146097
  let n100 := min (r / 36524) 3
  let r2 := r - 36524 * n100
  let n4 := r2 / 1461
  let r3 := r2 % 1461
  let n1 := min (r3 / 365) 3
  (400 * n400 + 100 * n100 + 4 * n4 + n1 + 1, r3 - 365 * n1)

/-- Month (1 = January) holding the zero-based day of the year `yday`. -/
def monthOfYday (leap : Bool) (yday : Nat) : Nat :=
  if yday < daysBefore leap 2 then 1
  else if yday < daysBefore leap 3 then 2
  else if yday < daysBefore leap 4 then 3
  else if yday < daysBefore leap 5 then 4
  else if yday < daysBefore leap 6 then 5
  else if yday < daysBefore leap 7 then 6
  else if yday < daysBefore leap 8 then 7
  else if yday < daysBefore leap 9 then 8
  else if yday < daysBefore leap 10 then 9
  else if yday < daysBefore leap 11 then 10
  else if yday < daysBefore leap 12 then 11
  else 12

/-- Year, month and day of the month of the day `days` counted from
1970-01-01. -/
def civilFromDays (days : Nat) : Nat × Nat × Nat :=
  let yd := yearOfDays (days + unixToInternalDays)
  let month := monthOfYday (isLeap yd.1) yd.2
  (yd.1, month, yd.2 - daysBefore (isLeap yd.1) month + 1)

/-- Days from 1970-01-01 to the given date (negative before 1970). -/
def daysFromCivil (year month day : Nat) : Int :=
  ((daysBeforeYear year + daysBefore (isLeap year) month + (day - 1) : Nat) : Int)
    - (unixToInternalDays : Int)

/-- ASCII digit of a number below ten. -/
def digitChar (n : Nat) : Char := Char.ofNat (n + 48)

/-- Two decimal digits, zero padded (`appendInt(b, x, 2)`). -/
def appendInt2 (n : Nat) : List Char :=
  [digitChar (n / 10 % 10), digitChar (n % 10)]

/-- At least four decimal digits, zero padded (`appendInt(b, x, 4)`). -/
def appendInt4 (n : Nat) : List Char :=
  if n < 10000 then
    [digitChar (n / 1000), digitChar (n / 100 % 10), digitChar (n / 10 % 10), digitChar (n % 10)]
  else Nat.toDigits 10 n

/-- The value of `time.Unix(0, unixNano).UTC().Format(time.RFC3339)`:
layout `2006-01-02T15:04:05Z07:00`, which has no fractional seconds, so the
nanoseconds within the second are dropped. -/
def formatRFC3339 (unixNano : Nat) : String :=
  let sec := unixNano / 1000000000
  let date := civilFromDays (sec / 86400)
  let rem := sec % 86400
  String.mk (appendInt4 date.1 ++ '-' :: appendInt2 date.2.1 ++ '-' :: appendInt2 date.2.2
    ++ 'T' :: appendInt2 (rem / 3600) ++ ':' :: appendInt2 (rem % 3600 / 60)
    ++ ':' :: appendInt2 (rem % 60) ++ ['Z'])

/-- Value of an ASCII digit. -/
def digitVal (c : Char) : Option Nat :=
  if 48 ≤ c.toNat ∧ c.toNat ≤ 57 then some (c.toNat - 48) else none

/-- Value of two ASCII digits. -/
def atoi2 (a b : Char) : Option Nat :=
  match digitVal a, digitVal b with
  | some x, some y => some (10 * x + y)
  | _, _ => none

/-- Longest prefix of digits, with the remaining characters. -/
def takeDigits : List Char → List Nat × List Char
  | [] => ([], [])
  | c :: cs =>
    match digitVal c with
    | some d => (d :: (takeDigits cs).1, (takeDigits cs).2)
    | none => ([], c :: cs)

/-- Nanoseconds denoted by the digits of a fractional second (digits past
the ninth are dropped). -/
def nanosOfDigits (ds : List Nat) : Nat :=
  ((ds.take 9) ++ List.replicate (9 - ds.length) 0).foldl (fun a d => 10 * a + d) 0

/-- Zone designator: `Z`, or a numeric offset `+hh:mm` / `-hh:mm`, as
seconds east of UTC. -/
def parseZone (cs : List Char) : Option Int :=
  match cs with
  | [z] => if z = 'Z' then some 0 else none
  | [sign, h1, h2, c, m1, m2] =>
    if c = ':' ∧ (sign = '+' ∨ sign = '-') then
      match atoi2 h1 h2, atoi2 m1 m2 with
      | some h, some m =>
        if h < 24 ∧ m < 60 then
          some (if sign = '-' then -((h * 3600 + m * 60 : Nat) : Int) else ((h * 3600 + m * 60 : Nat) : Int))
        else none
      | _, _ => none
    else none
  | _ => none

/-- What follows the seconds: an optional fraction, then the zone. -/
def parseFractionAndZone (rest : List Char) : Option (Nat × Int) :=
  match rest with
  | [] => none
  | c :: cs =>
    if c = '.' then
      if (takeDigits cs).1 = [] then none
      else (parseZone (takeDigits cs).2).map (fun off => (nanosOfDigits (takeDigits cs).1, off))
    else (parseZone (c :: cs)).map (fun off => (0, off))

/-- The instant an RFC 3339 timestamp denotes, in nanoseconds since the Unix
epoch; `none` when the string is not an RFC 3339 timestamp (years 0001 to
9999). -/
def parseRFC3339 (s : String) : Option Int :=
  match s.data with
  | y1 :: y2 :: y3 :: y4 :: c1 :: mo1 :: mo2 :: c2 :: d1 :: d2 :: c3 :: h1 :: h2 :: c4
      :: mi1 :: mi2 :: c5 :: s1 :: s2 :: rest =>
    if c1 = '-' ∧ c2 = '-' ∧ c3 = 'T' ∧ c4 = ':' ∧ c5 = ':' then
      match atoi2 y1 y2, atoi2 y3 y4, atoi2 mo1 mo2, atoi2 d1 d2, atoi2 h1 h2, atoi2 mi1 mi2,
          atoi2 s1 s2, parseFractionAndZone rest with
      | some yh, some yl, some month, some day, some hour, some minute, some sec, some fz =>
        if 1 ≤ 100 * yh + yl ∧ 1 ≤ month ∧ month ≤ 12 ∧ 1 ≤ day
            ∧ day ≤ daysIn (isLeap (100 * yh + yl)) month ∧ hour < 24 ∧ minute < 60 ∧ sec < 60 then
          some ((daysFromCivil (100 * yh + yl) month day * 86400
            + ((hour * 3600 + minute * 60 + sec : Nat) : Int) - fz.2) * 1000000000 + (fz.1 : Int))
        else none
      | _, _, _, _, _, _, _, _ => none
    else none
  | _ => none

end GoTime

/-! ## The gin router: registered routes, path matching, `c.Param` -/

namespace GoGin

/-- Segments of a path between slashes. -/
def splitSlash : List Char → List (List Char)
  | [] => [[]]
  | c :: cs =>
    if c = '/' then [] :: splitSlash cs
    else
      match splitSlash cs with
      | [] => [[c]]
      | seg :: segs => (c :: seg) :: segs

/-- Match the segments of a registered pattern against those of a request
path. A pattern segment `:name` matches any non-empty segment and binds it; any
other pattern segment matches only itself. (Catch-all `*name` segments are not
modelled: no registered route has one.) -/
def matchSegments : List (List Char) → List (List Char) → Option (List (String × String))
  | [], [] => some []
  | p :: ps, s :: ss =>
    match p with
    | ':' :: name =>
      if s = [] then none
      else (matchSegments ps ss).map (fun params => (String.mk name, String.mk s) :: params)
    | _ => if p = s then matchSegments ps ss else none
  | _, _ => none

/-- Parameters bound when `path` matches the registered `pattern`. -/
def matchPath (pattern path : String) : Option (List (String × String)) :=
  matchSegments (splitSlash pattern.data) (splitSlash path.data)

/-- The value of `c.Param(key)`: the bound value, or the empty string when the
matched route binds no such parameter. -/
def param (params : List (String × String)) (key : String) : String :=
  (params.lookup key).getD ""

/-- First registered route of the request's method whose pattern matches. -/
def lookup {η : Type} (routes : List (String × String × η)) (method path : String) :
    Option (η × List (String × String)) :=
  match routes with
  | [] => none
  | (m, pattern, handler) :: rest =>
    if m = method then
      match matchPath pattern path with
      | some params => some (handler, params)
      | none => lookup rest method path
    else lookup rest method path

/-- The path with its trailing slash removed, or added when it has none. -/
def toggleTrailingSlash (path : String) : String :=
  match path.data.reverse with
  | '/' :: rest => String.mk rest.reverse
  | _ => String.mk (path.data ++ ['/'])

/-- Outcome of routing a request. -/
inductive Routed (η : Type) where
  | handler (h : η) (params : List (String × String))
  | redirect (status : Nat) (location : String)
  | notFound

/-- Routing of the default engine: the matching route's handler; otherwise,
with `RedirectTrailingSlash` on, a redirect (301 for GET, 307 for other
methods) when the path with the trailing slash toggled has a route; otherwise
the 404 of `NoRoute`. -/
def route {η : Type} (routes : List (String × String × η)) (method path : String) : Routed η :=
  match lookup routes method path with
  | some (h, params) => .handler h params
  | none =>
    if path ≠ "/" ∧ (lookup routes method (toggleTrailingSlash path)).isSome then
      .redirect (if method = "GET" then 301 else 307) (toggleTrailingSlash path)
    else .notFound

end GoGin

/-! ## Data model (identical in both services) -/

namespace FTMS

/-- The Go struct `transaction`. `Metadata` is `none` for a nil map; the map's
entries are kept as a list of pairs, which is only ever copied. -/
structure transaction where
  ID : String
  UserID : Int
  Amount : Float
  Currency : String
  Type_ : String
  Metadata : Option (List (String × String))
  Timestamp : String

/-- The Go struct `TransactionEvent`. -/
structure TransactionEvent where
  EventType : String
  Transaction : transaction
  ServiceID : String
  Timestamp : String

/-- A `kafka.Header`. -/
structure Header where
  Key : String
  Value : ByteArray

/-- A `kafka.Message` (the fields the service sets). -/
structure Message where
  Key : ByteArray
  Value : ByteArray
  Headers : List Header

/-- What a handler writes as the response body. -/
inductive Body where
  | empty
  | text (s : String)
  | h (fields : List (String × String))
  | transaction (t : transaction)
  | transactions (ts : List transaction)
  | redirect (location : String)

/-- Status code and body of an HTTP response. -/
structure Response where
  status : Nat
  body : Body

/-- The record a response carries, if its body is a single transaction. -/
def Response.record (r : Response) : Option transaction :=
  match r.body with
  | .transaction t => some t
  | _ => none

/-- The handlers registered by `main`. -/
inductive Handler where
  | indexHandler
  | getTransactions
  | transactionById
  | createTransaction

/-- An HTTP request: method, path, and the outcome of `c.BindJSON` on its
body (`none` when binding returns an error). -/
structure Request where
  method : String
  path : String
  bind : Option transaction

/-- Decimal digits of `n`, most significant first, put in front of `acc`;
`fuel` bounds the number of digits. -/
def formatDigits : Nat → Nat → List Char → List Char
  | 0, _, acc => acc
  | fuel + 1, n, acc =>
    if n < 10 then GoTime.digitChar n :: acc
    else formatDigits fuel (n / 10) (GoTime.digitChar (n % 10) :: acc)

/-- The value of `fmt.Sprintf("%d", n)`: a minus sign for a negative number,
then the decimal digits of its magnitude. -/
def sprintfD (n : Int) : String :=
  if n < 0 then String.mk ('-' :: formatDigits (n.natAbs + 1) n.natAbs [])
  else String.mk (formatDigits (n.natAbs + 1) n.natAbs [])

end FTMS

/-! ## `user-service-1/main.go` -/

namespace FTMS.UserService1

/-- Initial value of the package-level variable `transactions`. -/
def transactions : List transaction :=
  [ { ID := "b35d8def-0025-440f-9d0e-b0aab008a093", UserID := 1009, Amount := 42.38,
      Currency := "KES", Type_ := "credit", Metadata := some [("merchant", "Shopify")],
      Timestamp := "2025-08-27T15:42:57.289182Z" },
    { ID := "9b2c85f0-7641-45f0-bf21-219a93c20f5f", UserID := 1012, Amount := 120.50,
      Currency := "USD", Type_ := "debit", Metadata := some [("merchant", "Amazon")],
      Timestamp := "2025-08-27T16:10:11.582739Z" },
    { ID := "f67291b1-41df-4d32-8b87-7c7f2f4d1d88", UserID := 1003, Amount := 15.75,
      Currency := "EUR", Type_ := "credit", Metadata := some [("merchant", "Netflix")],
      Timestamp := "2025-08-27T17:22:33.192847Z" } ]

/-- A `kafka.Writer`, with the fields `initKafkaWriter` sets. -/
structure Writer where
  Addr : String
  Topic : String
  Balancer : String
  RequiredAcks : Int
  Async : Bool

/-- The function `initKafkaWriter`, given the value of the environment
variable `KAFKA_BROKERS`: the value it assigns to `kafkaWriter`. -/
def initKafkaWriter (kafkaBrokersEnv : String) : Option Writer :=
  let kafkaBrokers := if kafkaBrokersEnv = "" then "0.0.0.0:9092" else kafkaBrokersEnv
  some { Addr := kafkaBrokers, Topic := "transactions", Balancer := "LeastBytes",
         RequiredAcks := 1, Async := true }

/-- Initial value of the package-level variable `kafkaWriter`: the nil
pointer. Only `initKafkaWriter` assigns it, and neither `main` nor a handler
calls `initKafkaWriter`, so this is its value whenever a handler runs. -/
def kafkaWriter : Option Writer := none

/-- What the handlers take from outside the process. -/
structure Env where
  /-- Result of `json.Marshal(event)`: the bytes, or the error. -/
  marshal : TransactionEvent → Except String ByteArray
  /-- Result of `WriteMessages(ctx, message)` on a writer that exists, under
  the ten-second deadline: `none` for nil, else the error (transport or
  deadline). -/
  writeMessages : Writer → Message → Option String
  /-- Reading of `time.Now()` in `createTransaction`, Unix nanoseconds. -/
  now : Nat
  /-- Reading of `time.Now()` in `publishTransactionEvent`, Unix nanoseconds. -/
  publishNow : Nat

/-- How a call of `publishTransactionEvent` ends: it returns an error value
(`none` for nil), or it panics. -/
inductive PublishEnd where
  | returned (err : Option String)
  | panicked

/-- What a call of `publishTransactionEvent` did. -/
structure PublishResult where
  /-- The envelope built. -/
  event : TransactionEvent
  /-- The message built for the writer, if any. -/
  message : Option Message
  /-- How the call ended. -/
  finish : PublishEnd

/-- The function `publishTransactionEvent`, reading the package-level
variable `kafkaWriter`. The call `kafkaWriter.WriteMessages` goes through the
pointer: when it is nil the call panics. -/
def publishTransactionEvent (env : Env) (kafkaWriter : Option Writer) (eventType : String)
    (txn : transaction) : PublishResult :=
  let event : TransactionEvent :=
    { EventType := eventType, Transaction := txn, ServiceID := "user-service-2",
      Timestamp := GoTime.formatRFC3339 env.publishNow }
  match env.marshal event with
  | .error err =>
    { event := event, message := none,
      finish := .returned (some ("failed to marshal event: " ++ err)) }
  | .ok eventBytes =>
    let message : Message :=
      { Key := txn.ID.toUTF8, Value := eventBytes,
        Headers := [ { Key := "event-type", Value := eventType.toUTF8 },
                     { Key := "user-id", Value := (sprintfD txn.UserID).toUTF8 } ] }
    match kafkaWriter with
    | none => { event := event, message := some message, finish := .panicked }
    | some writer =>
      match env.writeMessages writer message with
      | some err => { event := event, message := some message, finish := .returned (some err) }
      | none => { event := event, message := some message, finish := .returned none }

/-- What a handler leaves behind: the response, the value of `transactions`,
and the publication started in a goroutine, if any. -/
structure Outcome where
  response : Response
  transactions : List transaction
  published : Option PublishResult

/-- The process ends (and `transactions` with it): the goroutine the handler
started panicked, and nothing recovers a panic there. -/
def Outcome.processExits (o : Outcome) : Bool :=
  match o.published with
  | some { finish := .panicked, .. } => true
  | _ => false

/-- The handler `getTransactions`. -/
def getTransactions (transactions : List transaction) : Response × List transaction :=
  ({ status := 200, body := .transactions transactions }, transactions)

/-- The `for i, b := range transactions` loop of `getTransactionById`, from
index `i` on: the index and record of the first match. -/
def getTransactionByIdLoop (id : String) : List transaction → Nat → Option (Nat × transaction)
  | [], _ => none
  | b :: rest, i => if b.ID = id then some (i, b) else getTransactionByIdLoop id rest (i + 1)

/-- The function `getTransactionById`: the pointer `&transactions[i]` is the
index `i` together with the record it points to. -/
def getTransactionById (id : String) (transactions : List transaction) :
    Except String (Nat × transaction) × List transaction :=
  match getTransactionByIdLoop id transactions 0 with
  | some found => (.ok found, transactions)
  | none => (.error "transaction not found", transactions)

/-- The handler `transactionById`, given the parameters the router bound. -/
def transactionById (params : List (String × String)) (transactions : List transaction) :
    Response × List transaction :=
  let id := GoGin.param params "id"
  match getTransactionById id transactions with
  | (.error _, ts) => ({ status := 404, body := .h [("message", "Transaction not found.")] }, ts)
  | (.ok found, ts) => ({ status := 200, body := .transaction found.2 }, ts)

/-- The handler `createTransaction`, reading the package-level variable
`kafkaWriter` in the goroutine it starts. -/
def createTransaction (env : Env) (kafkaWriter : Option Writer) (bind : Option transaction)
    (transactions : List transaction) : Outcome :=
  match bind with
  | none =>
    { response := { status := 400, body := .h [("error", "Invalid transaction data")] },
      transactions := transactions, published := none }
  | some bound =>
    let newTransaction : transaction :=
      if bound.Timestamp = "" then { bound with Timestamp := GoTime.formatRFC3339 env.now }
      else bound
    { response := { status := 201, body := .transaction newTransaction },
      transactions := transactions ++ [newTransaction],
      published :=
        some (publishTransactionEvent env kafkaWriter "transaction_created" newTransaction) }

/-- The handler `indexHandler`. -/
def indexHandler : Response :=
  { status := 200, body := .text "Welcome to the User Service 1!" }

/-- The routes `main` registers, in order. -/
def routes : List (String × String × Handler) :=
  [ ("GET", "/", .indexHandler),
    ("GET", "/transactions", .getTransactions),
    ("GET", "/transactions/id", .transactionById),
    ("POST", "/transactions", .createTransaction) ]

/-- The server: route the request and run the handler. -/
def serve (env : Env) (kafkaWriter : Option Writer) (req : Request)
    (transactions : List transaction) : Outcome :=
  match GoGin.route routes req.method req.path with
  | .notFound =>
    { response := { status := 404, body := .text "404 page not found" },
      transactions := transactions, published := none }
  | .redirect status location =>
    { response := { status := status, body := .redirect location },
      transactions := transactions, published := none }
  | .handler .indexHandler _ =>
    { response := indexHandler, transactions := transactions, published := none }
  | .handler .getTransactions _ =>
    { response := (getTransactions transactions).1,
      transactions := (getTransactions transactions).2, published := none }
  | .handler .transactionById params =>
    { response := (transactionById params transactions).1,
      transactions := (transactionById params transactions).2, published := none }
  | .handler .createTransaction _ => createTransaction env kafkaWriter req.bind transactions

/-- A run of creation requests, each with its own environment, each handled
on the value of `transactions` the one before left: the responses and the
final value of `transactions`. -/
def createAll (kafkaWriter : Option Writer) :
    List (Env × transaction) → List transaction → List Response × List transaction
  | [], ts => ([], ts)
  | (env, t) :: rest, ts =>
    ((createTransaction env kafkaWriter (some t) ts).response
        :: (createAll kafkaWriter rest
            (createTransaction env kafkaWriter (some t) ts).transactions).1,
      (createAll kafkaWriter rest (createTransaction env kafkaWriter (some t) ts).transactions).2)

end FTMS.UserService1

/-! ## `user-service-2/main.go` -/

namespace FTMS.UserService2

/-- Initial value of the package-level variable `transactions`. -/
def transactions : List transaction :=
  [ { ID := "b35d8def-0025-440f-9d0e-b0aab008a093", UserID := 1009, Amount := 42.38,
      Currency := "KES", Type_ := "credit", Metadata := some [("merchant", "Shopify")],
      Timestamp := "2025-08-27T15:42:57.289182Z" },
    { ID := "9b2c85f0-7641-45f0-bf21-219a93c20f5f", UserID := 1012, Amount := 120.50,
      Currency := "USD", Type_ := "debit", Metadata := some [("merchant", "Amazon")],
      Timestamp := "2025-08-27T16:10:11.582739Z" },
    { ID := "f67291b1-41df-4d32-8b87-7c7f2f4d1d88", UserID := 1003, Amount := 15.75,
      Currency := "EUR", Type_ := "credit", Metadata := some [("merchant", "Netflix")],
      Timestamp := "2025-08-27T17:22:33.192847Z" } ]

/-- The handler `getTransactions`. -/
def getTransactions (transactions : List transaction) : Response × List transaction :=
  ({ status := 200, body := .transactions transactions }, transactions)

/-- The `for i, b := range transactions` loop of `getTransactionById`, from
index `i` on: the index and record of the first match. -/
def getTransactionByIdLoop (id : String) : List transaction → Nat → Option (Nat × transaction)
  | [], _ => none
  | b :: rest, i => if b.ID = id then some (i, b) else getTransactionByIdLoop id rest (i + 1)

/-- The function `getTransactionById`: the pointer `&transactions[i]` is the
index `i` together with the record it points to. -/
def getTransactionById (id : String) (transactions : List transaction) :
    Except String (Nat × transaction) × List transaction :=
  match getTransactionByIdLoop id transactions 0 with
  | some found => (.ok found, transactions)
  | none => (.error "transaction not found", transactions)

/-- The handler `transactionById`, given the parameters the router bound. -/
def transactionById (params : List (String × String)) (transactions : List transaction) :
    Response × List transaction :=
  let id := GoGin.param params "id"
  match getTransactionById id transactions with
  | (.error _, ts) => ({ status := 404, body := .h [("message", "Transaction not found.")] }, ts)
  | (.ok found, ts) => ({ status := 200, body := .transaction found.2 }, ts)

/-- The handler `createTransaction`. When `c.BindJSON` fails the handler
writes nothing itself: the 400 is the one `BindJSON` has already set. -/
def createTransaction (bind : Option transaction) (transactions : List transaction) :
    Response × List transaction :=
  match bind with
  | none => ({ status := 400, body := .empty }, transactions)
  | some newTransaction =>
    ({ status := 201, body := .transaction newTransaction }, transactions ++ [newTransaction])

end FTMS.UserService2

/-! ## Vocabulary of the statements and concrete inputs -/

namespace FTMS

/-- The record at index `i` of `ts` is the first one whose `ID` is `id`. -/
def FirstMatch (ts : List transaction) (id : String) (i : Nat) (b : transaction) : Prop :=
  ts[i]? = some b ∧ b.ID = id ∧ ∀ j, j < i → ∀ b', ts[j]? = some b' → b'.ID ≠ id

/-- The records a response carries, if its body is a list of transactions. -/
def Response.records (r : Response) : Option (List transaction) :=
  match r.body with
  | .transactions ts => some ts
  | _ => none

/-- The last instant (exclusive) that formats with a four-digit year:
10000-01-01T00:00:00Z in Unix nanoseconds. -/
def year10000 : Nat := 253402300800000000000

/-- Value of a string of decimal digits read from the left, starting from
`acc`; `none` when a character is not a digit. -/
def digitsValue (acc : Nat) : List Char → Option Nat
  | [] => some acc
  | c :: cs =>
    match GoTime.digitVal c with
    | some d => digitsValue (10 * acc + d) cs
    | none => none

/-- A digit string in canonical form: not empty, and without a leading zero
unless it is "0". -/
def canonicalDigits (cs : List Char) : Bool :=
  match cs with
  | [] => false
  | c :: rest => c ≠ '0' ∨ rest = []

/-- The integer a string denotes as a canonical decimal numeral: digits
without a leading zero, preceded by a minus sign exactly for a negative number
(so "-0", "007", "+7" and "" denote nothing). -/
def decimalValue (s : String) : Option Int :=
  match s.data with
  | [] => none
  | c :: cs =>
    if c = '-' then
      if canonicalDigits cs ∧ cs ≠ ['0'] then (digitsValue 0 cs).map (fun v => -Int.ofNat v)
      else none
    else
      if canonicalDigits (c :: cs) then (digitsValue 0 (c :: cs)).map (fun v => Int.ofNat v)
      else none

/-- An environment where a writer that exists accepts every message. The
handler reads the clock at 2025-08-27T15:42:57.289182Z and the publisher one
millisecond later. -/
def exampleEnv : UserService1.Env :=
  { marshal := fun _ => .ok ByteArray.empty, writeMessages := fun _ _ => none,
    now := 1756309377289182000, publishNow := 1756309377290182000 }

/-- The creation request of the specification's example: no timestamp. -/
def exampleRequest : transaction :=
  { ID := "t1", UserID := 7, Amount := 10.5, Currency := "USD", Type_ := "credit",
    Metadata := some [], Timestamp := "" }

/-- A creation request that carries its own timestamp. -/
def stampedRequest : transaction :=
  { ID := "t2", UserID := 7, Amount := 10.5, Currency := "USD", Type_ := "credit",
    Metadata := some [], Timestamp := "2025-08-27T15:42:57Z" }

/-- A creation request whose id is that of the first record of the initial
store. -/
def duplicateRequest : transaction :=
  { ID := "b35d8def-0025-440f-9d0e-b0aab008a093", UserID := 7, Amount := 10.5,
    Currency := "USD", Type_ := "credit", Metadata := some [], Timestamp := "" }

end FTMS


/-! ## Lemmas on the calendar and on `Format` / parse -/

namespace GoTime

theorem yearOfDays_fst (d : Nat) : (yearOfDays d).1 =
    400 * (d / 146097) + 100 * min (d % 146097 / 36524) 3 +
      4 * ((d % 146097 - 36524 * min (d % 146097 / 36524) 3) / 1461) +
      min ((d % 146097 - 36524 * min (d % 146097 / 36524) 3) % 1461 / 365) 3 + 1 := rfl

theorem yearOfDays_snd (d : Nat) : (yearOfDays d).2 =
    (d % 146097 - 36524 * min (d % 146097 / 36524) 3) % 1461 -
      365 * min ((d % 146097 - 36524 * min (d % 146097 / 36524) 3) % 1461 / 365) 3 := rfl

theorem isLeap_iff (y : Nat) :
    isLeap y = true ↔ (y % 4 = 0 ∧ (y % 100 ≠ 0 ∨ y % 400 = 0)) := by
  simp [isLeap]

theorem yearOfDays_spec (d : Nat) :
    daysBeforeYear (yearOfDays d).1 + (yearOfDays d).2 = d ∧
    (yearOfDays d).2 < 365 + (if isLeap (yearOfDays d).1 = true then 1 else 0) ∧
    1 ≤ (yearOfDays d).1 ∧ (d < 3652059 → (yearOfDays d).1 < 10000) := by
  rw [yearOfDays_fst, yearOfDays_snd]
  unfold daysBeforeYear
  generalize hq : d / 146097 = n400
  generalize hr : d % 146097 = r
  have hr' : r < 146097 := by omega
  generalize hn100 : min (r / 36524) 3 = n100
  have h100 : n100 ≤ 3 := by omega
  have h100a : 36524 * n100 ≤ r := by omega
  generalize hr2 : r - 36524 * n100 = r2
  have hr2' : r2 < 36525 := by omega
  have hr2'' : n100 < 3 → r2 < 36524 := by omega
  generalize hn4 : r2 / 1461 = n4
  generalize hr3 : r2 % 1461 = r3
  generalize hn1 : min (r3 / 365) 3 = n1
  have h1 : n1 ≤ 3 := by omega
  have h4 : n4 ≤ 24 := by omega
  have hd : d = 146097 * n400 + 36524 * n100 + 1461 * n4 + r3 := by omega
  have hn1r : 365 * n1 ≤ r3 := by omega
  generalize hy0 : 400 * n400 + 100 * n100 + 4 * n4 + n1 = y0
  have e4 : y0 / 4 = 100 * n400 + 25 * n100 + n4 := by omega
  have e100 : y0 / 100 = 4 * n400 + n100 := by omega
  have e400 : y0 / 400 = n400 := by omega
  have es : y0 + 1 - 1 = y0 := by omega
  rw [es, e4, e100, e400]
  refine ⟨by omega, ?_, by omega, by omega⟩
  split_ifs with hl
  · omega
  · rw [isLeap_iff] at hl
    omega

theorem daysBefore_values (leap : Bool) :
    daysBefore leap 1 = 0 ∧ daysBefore leap 2 = 31 ∧
    daysBefore leap 3 = 59 + (if leap = true then 1 else 0) ∧
    daysBefore leap 4 = 90 + (if leap = true then 1 else 0) ∧
    daysBefore leap 5 = 120 + (if leap = true then 1 else 0) ∧
    daysBefore leap 6 = 151 + (if leap = true then 1 else 0) ∧
    daysBefore leap 7 = 181 + (if leap = true then 1 else 0) ∧
    daysBefore leap 8 = 212 + (if leap = true then 1 else 0) ∧
    daysBefore leap 9 = 243 + (if leap = true then 1 else 0) ∧
    daysBefore leap 10 = 273 + (if leap = true then 1 else 0) ∧
    daysBefore leap 11 = 304 + (if leap = true then 1 else 0) ∧
    daysBefore leap 12 = 334 + (if leap = true then 1 else 0) ∧
    daysBefore leap 13 = 365 + (if leap = true then 1 else 0) := by
  cases leap <;> exact ⟨rfl, rfl, rfl, rfl, rfl, rfl, rfl, rfl, rfl, rfl, rfl, rfl, rfl⟩

theorem monthOfYday_cases (leap : Bool) (yday : Nat) :
    (monthOfYday leap yday = 1 ∧ yday < daysBefore leap 2) ∨
    (monthOfYday leap yday = 2 ∧ daysBefore leap 2 ≤ yday ∧ yday < daysBefore leap 3) ∨
    (monthOfYday leap yday = 3 ∧ daysBefore leap 3 ≤ yday ∧ yday < daysBefore leap 4) ∨
    (monthOfYday leap yday = 4 ∧ daysBefore leap 4 ≤ yday ∧ yday < daysBefore leap 5) ∨
    (monthOfYday leap yday = 5 ∧ daysBefore leap 5 ≤ yday ∧ yday < daysBefore leap 6) ∨
    (monthOfYday leap yday = 6 ∧ daysBefore leap 6 ≤ yday ∧ yday < daysBefore leap 7) ∨
    (monthOfYday leap yday = 7 ∧ daysBefore leap 7 ≤ yday ∧ yday < daysBefore leap 8) ∨
    (monthOfYday leap yday = 8 ∧ daysBefore leap 8 ≤ yday ∧ yday < daysBefore leap 9) ∨
    (monthOfYday leap yday = 9 ∧ daysBefore leap 9 ≤ yday ∧ yday < daysBefore leap 10) ∨
    (monthOfYday leap yday = 10 ∧ daysBefore leap 10 ≤ yday ∧ yday < daysBefore leap 11) ∨
    (monthOfYday leap yday = 11 ∧ daysBefore leap 11 ≤ yday ∧ yday < daysBefore leap 12) ∨
    (monthOfYday leap yday = 12 ∧ daysBefore leap 12 ≤ yday) := by
  unfold monthOfYday
  by_cases c1 : yday < daysBefore leap 2
  · rw [if_pos c1]
    exact Or.inl ⟨rfl, c1⟩
  rw [if_neg c1]
  by_cases c2 : yday < daysBefore leap 3
  · rw [if_pos c2]
    exact Or.inr (Or.inl ⟨rfl, Nat.le_of_not_lt c1, c2⟩)
  rw [if_neg c2]
  by_cases c3 : yday < daysBefore leap 4
  · rw [if_pos c3]
    exact Or.inr (Or.inr (Or.inl ⟨rfl, Nat.le_of_not_lt c2, c3⟩))
  rw [if_neg c3]
  by_cases c4 : yday < daysBefore leap 5
  · rw [if_pos c4]
    exact Or.inr (Or.inr (Or.inr (Or.inl ⟨rfl, Nat.le_of_not_lt c3, c4⟩)))
  rw [if_neg c4]
  by_cases c5 : yday < daysBefore leap 6
  · rw [if_pos c5]
    exact Or.inr (Or.inr (Or.inr (Or.inr (Or.inl ⟨rfl, Nat.le_of_not_lt c4, c5⟩))))
  rw [if_neg c5]
  by_cases c6 : yday < daysBefore leap 7
  · rw [if_pos c6]
    exact Or.inr (Or.inr (Or.inr (Or.inr (Or.inr (Or.inl ⟨rfl, Nat.le_of_not_lt c5, c6⟩)))))
  rw [if_neg c6]
  by_cases c7 : yday < daysBefore leap 8
  · rw [if_pos c7]
    exact Or.inr (Or.inr (Or.inr (Or.inr (Or.inr (Or.inr (Or.inl ⟨rfl, Nat.le_of_not_lt c6, c7⟩))))))
  rw [if_neg c7]
  by_cases c8 : yday < daysBefore leap 9
  · rw [if_pos c8]
    exact Or.inr (Or.inr (Or.inr (Or.inr (Or.inr (Or.inr (Or.inr (Or.inl ⟨rfl, Nat.le_of_not_lt c7, c8⟩)))))))
  rw [if_neg c8]
  by_cases c9 : yday < daysBefore leap 10
  · rw [if_pos c9]
    exact Or.inr (Or.inr (Or.inr (Or.inr (Or.inr (Or.inr (Or.inr (Or.inr (Or.inl ⟨rfl, Nat.le_of_not_lt c8, c9⟩))))))))
  rw [if_neg c9]
  by_cases c10 : yday < daysBefore leap 11
  · rw [if_pos c10]
    exact Or.inr (Or.inr (Or.inr (Or.inr (Or.inr (Or.inr (Or.inr (Or.inr (Or.inr (Or.inl ⟨rfl, Nat.le_of_not_lt c9, c10⟩)))))))))
  rw [if_neg c10]
  by_cases c11 : yday < daysBefore leap 12
  · rw [if_pos c11]
    exact Or.inr (Or.inr (Or.inr (Or.inr (Or.inr (Or.inr (Or.inr (Or.inr (Or.inr (Or.inr (Or.inl ⟨rfl, Nat.le_of_not_lt c10, c11⟩))))))))))
  rw [if_neg c11]
  exact Or.inr (Or.inr (Or.inr (Or.inr (Or.inr (Or.inr (Or.inr (Or.inr (Or.inr (Or.inr (Or.inr (⟨rfl, Nat.le_of_not_lt c11⟩)))))))))))

theorem monthOfYday_spec (leap : Bool) (yday : Nat)
    (h : yday < 365 + (if leap = true then 1 else 0)) :
    1 ≤ monthOfYday leap yday ∧ monthOfYday leap yday ≤ 12 ∧
    daysBefore leap (monthOfYday leap yday) ≤ yday ∧
    yday < daysBefore leap (monthOfYday leap yday + 1) := by
  obtain ⟨b1, b2, b3, b4, b5, b6, b7, b8, b9, b10, b11, b12, b13⟩ := daysBefore_values leap
  rw [← b13] at h
  rcases monthOfYday_cases leap yday with ⟨e, p⟩ | ⟨e, p, q⟩ | ⟨e, p, q⟩ | ⟨e, p, q⟩ | ⟨e, p, q⟩ | ⟨e, p, q⟩ | ⟨e, p, q⟩ | ⟨e, p, q⟩ | ⟨e, p, q⟩ | ⟨e, p, q⟩ | ⟨e, p, q⟩ | ⟨e, p⟩
  all_goals rw [e]
  · exact ⟨by decide, by decide, by rw [b1]; exact Nat.zero_le _, p⟩
  · exact ⟨by decide, by decide, p, q⟩
  · exact ⟨by decide, by decide, p, q⟩
  · exact ⟨by decide, by decide, p, q⟩
  · exact ⟨by decide, by decide, p, q⟩
  · exact ⟨by decide, by decide, p, q⟩
  · exact ⟨by decide, by decide, p, q⟩
  · exact ⟨by decide, by decide, p, q⟩
  · exact ⟨by decide, by decide, p, q⟩
  · exact ⟨by decide, by decide, p, q⟩
  · exact ⟨by decide, by decide, p, q⟩
  · exact ⟨by decide, by decide, p, h⟩

theorem civilFromDays_spec (days : Nat) :
    daysFromCivil (civilFromDays days).1 (civilFromDays days).2.1 (civilFromDays days).2.2 = days ∧
    1 ≤ (civilFromDays days).1 ∧ 
    1 ≤ (civilFromDays days).2.1 ∧ (civilFromDays days).2.1 ≤ 12 ∧
    1 ≤ (civilFromDays days).2.2 ∧
    (civilFromDays days).2.2 ≤ daysIn (isLeap (civilFromDays days).1) (civilFromDays days).2.1 ∧
    (days < 2932897 → (civilFromDays days).1 < 10000) := by
  obtain ⟨h1, h2, h3, h4⟩ := yearOfDays_spec (days + unixToInternalDays)
  obtain ⟨m1, m2, m3, m4⟩ := monthOfYday_spec _ _ h2
  simp only [civilFromDays, daysFromCivil, daysIn]
  simp only [unixToInternalDays] at *
  refine ⟨by omega, h3, m1, m2, by omega, by omega, fun h => h4 (by omega)⟩



theorem digitVal_digitChar (n : Nat) (h : n < 10) : digitVal (digitChar n) = some n := by
  interval_cases n <;> rfl

theorem atoi2_digits (n : Nat) (h : n < 100) :
    atoi2 (digitChar (n / 10 % 10)) (digitChar (n % 10)) = some n := by
  unfold atoi2
  rw [digitVal_digitChar _ (by omega), digitVal_digitChar _ (by omega)]
  simp only [Option.some.injEq]
  omega

theorem atoi2_high (n : Nat) (h : n < 10000) :
    atoi2 (digitChar (n / 1000)) (digitChar (n / 100 % 10)) = some (n / 100) := by
  unfold atoi2
  rw [digitVal_digitChar _ (by omega), digitVal_digitChar _ (by omega)]
  simp only [Option.some.injEq]
  omega

theorem daysIn_le (leap : Bool) (mo : Nat) (h1 : 1 ≤ mo) (h12 : mo ≤ 12) :
    daysIn leap mo ≤ 31 := by
  unfold daysIn
  obtain ⟨b1, b2, b3, b4, b5, b6, b7, b8, b9, b10, b11, b12, b13⟩ := daysBefore_values leap
  have hl : (if leap = true then 1 else 0) ≤ 1 := by split_ifs <;> omega
  generalize (if leap = true then 1 else 0) = l at *
  interval_cases mo <;>
    simp only [Nat.reduceAdd, b1, b2, b3, b4, b5, b6, b7, b8, b9, b10, b11, b12, b13] <;> omega

theorem parseRFC3339_fields (y mo d h mi s : Nat) (hy : y < 10000) (hy1 : 1 ≤ y)
    (hmo1 : 1 ≤ mo) (hmo : mo ≤ 12) (hd1 : 1 ≤ d) (hd : d ≤ daysIn (isLeap y) mo)
    (hh : h < 24) (hmi : mi < 60) (hs : s < 60) :
    parseRFC3339 (String.mk (appendInt4 y ++ '-' :: appendInt2 mo ++ '-' :: appendInt2 d
      ++ 'T' :: appendInt2 h ++ ':' :: appendInt2 mi ++ ':' :: appendInt2 s ++ ['Z']))
    = some ((daysFromCivil y mo d * 86400 + ((h * 3600 + mi * 60 + s : Nat) : Int)) * 1000000000) := by
  have hd' : d < 100 := by
    have := daysIn_le (isLeap y) mo hmo1 hmo
    omega
  have e1 := atoi2_high y hy
  have e2 := atoi2_digits (y % 100) (by omega)
  have e3 := atoi2_digits mo (by omega)
  have e4 := atoi2_digits d hd'
  have e5 := atoi2_digits h (by omega)
  have e6 := atoi2_digits mi (by omega)
  have e7 := atoi2_digits s (by omega)
  have ey : y % 100 / 10 % 10 = y / 10 % 10 := by omega
  have ey' : y % 100 % 10 = y % 10 := by omega
  rw [ey, ey'] at e2
  have ey2 : 100 * (y / 100) + y % 100 = y := by omega
  unfold parseRFC3339 appendInt4 appendInt2
  rw [if_pos hy]
  simp only [List.cons_append, List.nil_append, List.singleton_append]
  simp only [e1, e2, e3, e4, e5, e6, e7, ey2, parseFractionAndZone, parseZone]
  simp [hy1, hmo1, hmo, hd1, hd, hh, hmi, hs]
  rw [ey2]
  exact ⟨⟨hy1, hd⟩, rfl⟩

theorem parseRFC3339_formatRFC3339 (unixNano : Nat) (h : unixNano < 253402300800000000000) :
    parseRFC3339 (formatRFC3339 unixNano)
      = some ((unixNano / 1000000000 * 1000000000 : Nat) : Int) := by
  obtain ⟨c1, c2, c3, c4, c5, c6, c7⟩ := civilFromDays_spec (unixNano / 1000000000 / 86400)
  unfold formatRFC3339
  simp only []
  rw [parseRFC3339_fields _ _ _ _ _ _ (c7 (by omega)) c2 c3 c4 c5 c6 (by omega) (by omega) (by omega)]
  rw [c1]
  simp only [Option.some.injEq]
  push_cast
  omega

end GoTime

/-! ## `Sprintf("%d")` renders the canonical decimal numeral -/

namespace FTMS

theorem digitsValue_formatDigits (fuel n : Nat) (acc : List Char) (h : n < fuel) :
    digitsValue 0 (formatDigits fuel n acc) = digitsValue n acc := by
  induction fuel generalizing n acc with
  | zero => omega
  | succ fuel ih =>
    unfold formatDigits
    by_cases hn : n < 10
    · rw [if_pos hn]
      simp only [digitsValue, GoTime.digitVal_digitChar n hn, Nat.mul_zero, Nat.zero_add]
    · rw [if_neg hn, ih (n / 10) _ (by omega)]
      have hd : n % 10 < 10 := Nat.mod_lt _ (by decide)
      have e : 10 * (n / 10) + n % 10 = n := Nat.div_add_mod n 10
      simp only [digitsValue, GoTime.digitVal_digitChar _ hd, e]

theorem formatDigits_head (fuel n : Nat) (acc : List Char) (h : n < fuel) :
    ∃ m rest, formatDigits fuel n acc = GoTime.digitChar m :: rest ∧ m < 10 ∧
      (m = 0 → n = 0 ∧ rest = acc) := by
  induction fuel generalizing n acc with
  | zero => omega
  | succ fuel ih =>
    unfold formatDigits
    by_cases hn : n < 10
    · rw [if_pos hn]
      exact ⟨n, acc, rfl, hn, fun h0 => ⟨h0, rfl⟩⟩
    · rw [if_neg hn]
      obtain ⟨m, rest, e, hm, h0⟩ := ih (n / 10) (GoTime.digitChar (n % 10) :: acc) (by omega)
      refine ⟨m, rest, e, hm, fun hz => ?_⟩
      have := (h0 hz).1
      omega

theorem digitChar_ne_minus (m : Nat) (h : m < 10) : GoTime.digitChar m ≠ '-' := by
  interval_cases m <;> decide

theorem digitChar_eq_zero (m : Nat) (h : m < 10) : GoTime.digitChar m = '0' ↔ m = 0 := by
  interval_cases m <;> decide

theorem decimalValue_sprintfD (n : Int) : decimalValue (sprintfD n) = some n := by
  obtain ⟨m, rest, e, hm, h0⟩ := formatDigits_head (n.natAbs + 1) n.natAbs [] (by omega)
  have hv := digitsValue_formatDigits (n.natAbs + 1) n.natAbs [] (by omega)
  rw [e] at hv
  unfold sprintfD decimalValue
  by_cases hn : n < 0
  · have hm0 : m ≠ 0 := fun hz => by have := (h0 hz).1; omega
    have hc : GoTime.digitChar m ≠ '0' := fun hc => hm0 ((digitChar_eq_zero m hm).1 hc)
    rw [if_pos hn, e]
    have hv2 : digitsValue n.natAbs [] = some n.natAbs := rfl
    simp only [if_true, canonicalDigits, hv, hv2, Option.map_some', ne_eq, hc,
      not_false_eq_true, true_or, decide_True, List.cons.injEq, false_and, and_self]
    rw [Option.some.injEq, Int.ofNat_eq_coe]
    omega
  · have hc : GoTime.digitChar m ≠ '-' := digitChar_ne_minus m hm
    have hcan : canonicalDigits (GoTime.digitChar m :: rest) = true := by
      by_cases hz : m = 0
      · simp [canonicalDigits, (h0 hz).2]
      · have : GoTime.digitChar m ≠ '0' := fun h => hz ((digitChar_eq_zero m hm).1 h)
        simp [canonicalDigits, this]
    rw [if_neg hn, e]
    have hv2 : digitsValue n.natAbs [] = some n.natAbs := rfl
    simp only [if_neg hc, hcan, if_true, hv, hv2, Option.map_some']
    rw [Option.some.injEq, Int.ofNat_eq_coe]
    omega

end FTMS

/-! ## The lookup loop -/

namespace FTMS

theorem loop_none (id : String) (ts : List transaction) (i : Nat) :
    UserService1.getTransactionByIdLoop id ts i = none ↔ ∀ b ∈ ts, b.ID ≠ id := by
  induction ts generalizing i with
  | nil => simp [UserService1.getTransactionByIdLoop]
  | cons b rest ih =>
    unfold UserService1.getTransactionByIdLoop
    by_cases hb : b.ID = id
    · simp [hb]
    · simp [hb, ih]

theorem loop_some (id : String) (ts : List transaction) (i k : Nat) (b : transaction) :
    UserService1.getTransactionByIdLoop id ts i = some (k, b) ↔
      i ≤ k ∧ FirstMatch ts id (k - i) b := by
  induction ts generalizing i with
  | nil => simp [UserService1.getTransactionByIdLoop, FirstMatch]
  | cons a rest ih =>
    unfold UserService1.getTransactionByIdLoop
    by_cases ha : a.ID = id
    · rw [if_pos ha]
      constructor
      · intro h
        simp only [Option.some.injEq, Prod.mk.injEq] at h
        obtain ⟨rfl, rfl⟩ := h
        refine ⟨le_refl _, ?_⟩
        simp [FirstMatch, ha]
      · rintro ⟨hik, h0, _, hmin⟩
        rcases Nat.eq_zero_or_pos (k - i) with hz | hp
        · rw [hz] at h0
          simp only [List.getElem?_cons_zero, Option.some.injEq] at h0
          have : i = k := by omega
          simp [h0, this]
        · exact absurd ha (hmin 0 hp a (by simp))
    · rw [if_neg ha, ih]
      constructor
      · rintro ⟨hik, h0, hid, hmin⟩
        have e : k - i = (k - (i + 1)) + 1 := by omega
        refine ⟨by omega, ?_, hid, ?_⟩
        · rw [e]; simpa using h0
        · intro j hj b' hb'
          cases j with
          | zero =>
            simp only [List.getElem?_cons_zero, Option.some.injEq] at hb'
            rw [← hb']; exact ha
          | succ j =>
            simp only [List.getElem?_cons_succ] at hb'
            exact hmin j (by omega) b' hb'
      · rintro ⟨hik, h0, hid, hmin⟩
        have hne : k - i ≠ 0 := by
          intro hz
          rw [hz] at h0
          simp only [List.getElem?_cons_zero, Option.some.injEq] at h0
          exact ha (h0 ▸ hid)
        have e : k - i = (k - (i + 1)) + 1 := by omega
        refine ⟨by omega, ?_, hid, ?_⟩
        · rw [e] at h0; simpa using h0
        · intro j hj b' hb'
          exact hmin (j + 1) (by omega) b' (by simpa using hb')

theorem loop_service2 (id : String) (ts : List transaction) (i : Nat) :
    UserService2.getTransactionByIdLoop id ts i = UserService1.getTransactionByIdLoop id ts i := by
  induction ts generalizing i with
  | nil => rfl
  | cons b rest ih =>
    unfold UserService2.getTransactionByIdLoop UserService1.getTransactionByIdLoop
    rw [ih]

theorem getTransactionById_service2 (id : String) (ts : List transaction) :
    UserService2.getTransactionById id ts = UserService1.getTransactionById id ts := by
  unfold UserService2.getTransactionById UserService1.getTransactionById
  rw [loop_service2]

theorem getTransactionById_ok (id : String) (ts : List transaction) (i : Nat) (b : transaction) :
    (UserService1.getTransactionById id ts).1 = .ok (i, b) ↔ FirstMatch ts id i b := by
  unfold UserService1.getTransactionById
  cases h : UserService1.getTransactionByIdLoop id ts 0 with
  | none =>
    rw [loop_none] at h
    constructor
    · intro hf; cases hf
    · intro hf
      exact absurd hf.2.1 (h b (List.getElem?_mem hf.1))
  | some found =>
    obtain ⟨k, c⟩ := found
    rw [loop_some] at h
    simp only [Except.ok.injEq, Prod.mk.injEq]
    constructor
    · rintro ⟨rfl, rfl⟩; simpa using h.2
    · intro hf
      have h2 := h.2
      simp only [Nat.sub_zero] at h2
      have hki : k = i := by
        rcases Nat.lt_trichotomy k i with hlt | heq | hgt
        · exact absurd h2.2.1 (hf.2.2 k hlt c h2.1)
        · exact heq
        · exact absurd hf.2.1 (h2.2.2 i hgt b hf.1)
      subst hki
      have := h2.1.symm.trans hf.1
      simp only [Option.some.injEq] at this
      exact ⟨rfl, this⟩

theorem getTransactionById_error (id : String) (ts : List transaction) (e : String) :
    (UserService1.getTransactionById id ts).1 = .error e ↔
      (e = "transaction not found" ∧ ∀ b ∈ ts, b.ID ≠ id) := by
  unfold UserService1.getTransactionById
  cases h : UserService1.getTransactionByIdLoop id ts 0 with
  | none =>
    rw [loop_none] at h
    simp only [Except.error.injEq]
    constructor
    · intro he; exact ⟨he.symm, h⟩
    · intro he; exact he.1.symm
  | some found =>
    obtain ⟨k, c⟩ := found
    rw [loop_some] at h
    constructor
    · intro hf; cases hf
    · intro hf
      exact absurd h.2.2.1 (hf.2 c (List.getElem?_mem h.2.1))

theorem getTransactionById_store (id : String) (ts : List transaction) :
    (UserService1.getTransactionById id ts).2 = ts := by
  unfold UserService1.getTransactionById
  cases UserService1.getTransactionByIdLoop id ts 0 <;> rfl

end FTMS

/-! ## The store: lookup and creation -/

namespace FTMS

theorem loop_append_miss (id : String) (s : List transaction) (rec : transaction) (i : Nat)
    (h : ∀ b ∈ s, b.ID ≠ id) (hrec : rec.ID = id) :
    UserService1.getTransactionByIdLoop id (s ++ [rec]) i = some (i + s.length, rec) := by
  induction s generalizing i with
  | nil => simp [UserService1.getTransactionByIdLoop, hrec]
  | cons a rest ih =>
    have ha : a.ID ≠ id := h a (by simp)
    have hr : ∀ b ∈ rest, b.ID ≠ id := fun b hb => h b (by simp [hb])
    have e : i + 1 + rest.length = i + (rest.length + 1) := by omega
    rw [List.cons_append, UserService1.getTransactionByIdLoop, if_neg ha, ih (i + 1) hr,
      List.length_cons, e]

theorem getTransactionById_append_miss (id : String) (s : List transaction) (rec : transaction)
    (h : ∀ b ∈ s, b.ID ≠ id) (hrec : rec.ID = id) :
    (UserService1.getTransactionById id (s ++ [rec])).1 = .ok (s.length, rec) := by
  unfold UserService1.getTransactionById
  rw [loop_append_miss id s rec 0 h hrec]
  simp

/-- C3: in both services `getTransactionById` leaves `transactions` as it
found it, returns index and record of the first record (in insertion order)
whose ID is the requested one, and returns an error, always the not-found
error, exactly when no stored record has that ID. -/
theorem getTransactionById_first_match (ts : List transaction) (id : String) :
    ((UserService1.getTransactionById id ts).2 = ts ∧
      (∀ i b, (UserService1.getTransactionById id ts).1 = .ok (i, b) ↔ FirstMatch ts id i b) ∧
      ((UserService1.getTransactionById id ts).1 = .error "transaction not found" ↔
        ∀ b ∈ ts, b.ID ≠ id) ∧
      (∀ e, (UserService1.getTransactionById id ts).1 = .error e → e = "transaction not found")) ∧
    ((UserService2.getTransactionById id ts).2 = ts ∧
      (∀ i b, (UserService2.getTransactionById id ts).1 = .ok (i, b) ↔ FirstMatch ts id i b) ∧
      ((UserService2.getTransactionById id ts).1 = .error "transaction not found" ↔
        ∀ b ∈ ts, b.ID ≠ id) ∧
      (∀ e, (UserService2.getTransactionById id ts).1 = .error e → e = "transaction not found")) := by
  rw [getTransactionById_service2]
  have key : (UserService1.getTransactionById id ts).2 = ts ∧
      (∀ i b, (UserService1.getTransactionById id ts).1 = .ok (i, b) ↔ FirstMatch ts id i b) ∧
      ((UserService1.getTransactionById id ts).1 = .error "transaction not found" ↔
        ∀ b ∈ ts, b.ID ≠ id) ∧
      (∀ e, (UserService1.getTransactionById id ts).1 = .error e → e = "transaction not found") := by
    refine ⟨getTransactionById_store id ts, fun i b => getTransactionById_ok id ts i b, ?_, ?_⟩
    · rw [getTransactionById_error]
      exact ⟨fun h => h.2, fun h => ⟨rfl, h⟩⟩
    · intro e he
      exact ((getTransactionById_error id ts e).1 he).1
  exact ⟨key, key⟩

theorem createTransaction1_record (env : UserService1.Env) (w : Option UserService1.Writer)
    (t : transaction) (s : List transaction) :
    ∃ rec, rec.ID = t.ID ∧
      (UserService1.createTransaction env w (some t) s).response
        = { status := 201, body := .transaction rec } ∧
      (UserService1.createTransaction env w (some t) s).transactions = s ++ [rec] ∧
      (UserService1.createTransaction env w (some t) s).published
        = some (UserService1.publishTransactionEvent env w "transaction_created" rec) ∧
      (t.Timestamp = "" → rec.Timestamp = GoTime.formatRFC3339 env.now) ∧
      (t.Timestamp ≠ "" → rec = t) := by
  by_cases ht : t.Timestamp = ""
  · refine ⟨{ t with Timestamp := GoTime.formatRFC3339 env.now }, rfl, ?_, ?_, ?_, ?_, ?_⟩
    · simp [UserService1.createTransaction, ht]
    · simp [UserService1.createTransaction, ht]
    · simp [UserService1.createTransaction, ht]
    · intro _; rfl
    · intro h; exact absurd ht h
  · refine ⟨t, rfl, ?_, ?_, ?_, ?_, ?_⟩
    · simp [UserService1.createTransaction, ht]
    · simp [UserService1.createTransaction, ht]
    · simp [UserService1.createTransaction, ht]
    · intro h; exact absurd h ht
    · intro _; rfl

theorem getTransactionById_append_hit (id : String) (s : List transaction) (rec : transaction)
    (i : Nat) (b : transaction) (h : FirstMatch s id i b) :
    (UserService1.getTransactionById id (s ++ [rec])).1 = .ok (i, b) := by
  rw [getTransactionById_ok]
  obtain ⟨h1, h2, h3⟩ := h
  have hi : i < s.length := by
    rcases List.getElem?_eq_some.1 h1 with ⟨hlt, -⟩
    exact hlt
  refine ⟨?_, h2, ?_⟩
  · rw [List.getElem?_append_left hi]; exact h1
  · intro j hj b' hb'
    rw [List.getElem?_append_left (Nat.lt_trans hj hi)] at hb'
    exact h3 j hj b' hb'

/-- C1 (amended): after `createTransaction` has handled a well-formed request,
`getTransactionById` with the request's transaction id succeeds; when no
record stored before had that id it returns the record of the creation
response (with the server-assigned timestamp when the request had none), and
when a record with that id was already stored it returns the earliest such
record, at its old index, not the one just created; in both services. -/
theorem create_then_get_fresh_id (env : UserService1.Env) (w : Option UserService1.Writer)
    (t : transaction) (s : List transaction) :
    (∃ rec, (UserService1.createTransaction env w (some t) s).response
          = { status := 201, body := .transaction rec } ∧
        ((∀ b ∈ s, b.ID ≠ t.ID) →
          (UserService1.getTransactionById t.ID
            (UserService1.createTransaction env w (some t) s).transactions).1
            = .ok (s.length, rec)) ∧
        (∀ i b, FirstMatch s t.ID i b →
          (UserService1.getTransactionById t.ID
            (UserService1.createTransaction env w (some t) s).transactions).1 = .ok (i, b))) ∧
    (∃ rec, (UserService2.createTransaction (some t) s).1
          = { status := 201, body := .transaction rec } ∧
        ((∀ b ∈ s, b.ID ≠ t.ID) →
          (UserService2.getTransactionById t.ID
            (UserService2.createTransaction (some t) s).2).1 = .ok (s.length, rec)) ∧
        (∀ i b, FirstMatch s t.ID i b →
          (UserService2.getTransactionById t.ID
            (UserService2.createTransaction (some t) s).2).1 = .ok (i, b))) := by
  constructor
  · obtain ⟨rec, hid, hresp, hstore, -⟩ := createTransaction1_record env w t s
    refine ⟨rec, hresp, ?_, ?_⟩
    · intro h
      rw [hstore]
      exact getTransactionById_append_miss t.ID s rec h hid
    · intro i b h
      rw [hstore]
      exact getTransactionById_append_hit t.ID s rec i b h
  · refine ⟨t, rfl, ?_, ?_⟩
    · intro h
      rw [getTransactionById_service2]
      exact getTransactionById_append_miss t.ID s t h rfl
    · intro i b h
      rw [getTransactionById_service2]
      exact getTransactionById_append_hit t.ID s t i b h

/-- Witness of C1 (amended): against the initial store, the specification's
example request (a fresh id) is found at the new index 3, and a request
repeating the id of the first stored record is answered by that first
record. -/
theorem create_then_get_fresh_id_witness :
    (∀ b ∈ UserService1.transactions, b.ID ≠ exampleRequest.ID) ∧
    (∃ rec, (UserService1.createTransaction exampleEnv UserService1.kafkaWriter
            (some exampleRequest) UserService1.transactions).response
          = { status := 201, body := .transaction rec } ∧
        (UserService1.getTransactionById exampleRequest.ID
          (UserService1.createTransaction exampleEnv UserService1.kafkaWriter
            (some exampleRequest) UserService1.transactions).transactions).1 = .ok (3, rec)) ∧
    (∀ b, UserService1.transactions[0]? = some b →
        FirstMatch UserService1.transactions duplicateRequest.ID 0 b ∧
        (UserService1.getTransactionById duplicateRequest.ID
          (UserService1.createTransaction exampleEnv UserService1.kafkaWriter
            (some duplicateRequest) UserService1.transactions).transactions).1 = .ok (0, b)) := by
  refine ⟨by decide, ?_, ?_⟩
  · obtain ⟨rec, hresp, hfresh, -⟩ :=
      (create_then_get_fresh_id exampleEnv UserService1.kafkaWriter exampleRequest
        UserService1.transactions).1
    exact ⟨rec, hresp, hfresh (by decide)⟩
  · intro b hb
    have hfm : FirstMatch UserService1.transactions duplicateRequest.ID 0 b := by
      refine ⟨hb, ?_, fun j hj => absurd hj (Nat.not_lt_zero j)⟩
      simp only [UserService1.transactions, List.getElem?_cons_zero, Option.some.injEq] at hb
      rw [← hb]
      rfl
    obtain ⟨rec, -, -, hdup⟩ :=
      (create_then_get_fresh_id exampleEnv UserService1.kafkaWriter duplicateRequest
        UserService1.transactions).1
    exact ⟨hfm, hdup 0 b hfm⟩

/-- Counterexample to C1 as stated: the initial store already holds a record
with the request's id; the creation response carries the new record (currency
USD) while the lookup by that id returns the record at index 0 (currency KES). -/
theorem create_then_get_duplicate_id :
    ((UserService1.createTransaction exampleEnv UserService1.kafkaWriter (some duplicateRequest)
        UserService1.transactions).response.record.map (fun r => r.Currency)) = some "USD" ∧
    ((UserService1.getTransactionById duplicateRequest.ID
        (UserService1.createTransaction exampleEnv UserService1.kafkaWriter
          (some duplicateRequest) UserService1.transactions).transactions).1.toOption.map
        (fun found => (found.1, found.2.Currency))) = some (0, "KES") := by
  constructor <;> rfl

end FTMS

namespace FTMS

/-- C4: a well-formed creation request with a non-empty timestamp always
succeeds with 201 and the request's record as body, and leaves the store as the
previous store with exactly that record, timestamp included, appended at the
end: the earlier records keep their positions and values, whatever ids they
have (a duplicate id becomes a second entry); in both services. -/
theorem create_appends_verbatim (env : UserService1.Env) (w : Option UserService1.Writer)
    (t : transaction) (s : List transaction) (h : t.Timestamp ≠ "") :
    ((UserService1.createTransaction env w (some t) s).response
        = { status := 201, body := .transaction t } ∧
      (UserService1.createTransaction env w (some t) s).transactions = s ++ [t] ∧
      (UserService1.createTransaction env w (some t) s).transactions.length = s.length + 1 ∧
      (∀ i, i < s.length →
        (UserService1.createTransaction env w (some t) s).transactions[i]? = s[i]?) ∧
      (UserService1.createTransaction env w (some t) s).transactions[s.length]? = some t) ∧
    ((UserService2.createTransaction (some t) s).1 = { status := 201, body := .transaction t } ∧
      (UserService2.createTransaction (some t) s).2 = s ++ [t] ∧
      (UserService2.createTransaction (some t) s).2.length = s.length + 1 ∧
      (∀ i, i < s.length → (UserService2.createTransaction (some t) s).2[i]? = s[i]?) ∧
      (UserService2.createTransaction (some t) s).2[s.length]? = some t) := by
  have e1 : (UserService1.createTransaction env w (some t) s).transactions = s ++ [t] := by
    simp [UserService1.createTransaction, h]
  have e2 : (UserService2.createTransaction (some t) s).2 = s ++ [t] := rfl
  refine ⟨⟨?_, e1, ?_, ?_, ?_⟩, ⟨rfl, e2, ?_, ?_, ?_⟩⟩
  · simp [UserService1.createTransaction, h]
  · rw [e1]; simp
  · intro i hi; rw [e1]; exact List.getElem?_append_left hi
  · rw [e1]; exact List.getElem?_concat_length s t
  · rw [e2]; simp
  · intro i hi; rw [e2]; exact List.getElem?_append_left hi
  · rw [e2]; exact List.getElem?_concat_length s t

/-- Witness of C4: a request carrying its own timestamp, against the initial
store. -/
theorem create_appends_verbatim_witness :
    stampedRequest.Timestamp ≠ "" ∧
    (UserService1.createTransaction exampleEnv UserService1.kafkaWriter (some stampedRequest)
      UserService1.transactions).transactions = UserService1.transactions ++ [stampedRequest] :=
  ⟨by decide,
    (create_appends_verbatim exampleEnv UserService1.kafkaWriter stampedRequest
      UserService1.transactions (by decide)).1.2.1⟩

/-- C7: when binding the body fails, `createTransaction` answers 400, leaves
`transactions` as it was and starts no publication; in both services (the
second service has no publication at all). -/
theorem create_rejects_malformed (env : UserService1.Env) (w : Option UserService1.Writer)
    (s : List transaction) :
    ((UserService1.createTransaction env w none s).response.status = 400 ∧
      (UserService1.createTransaction env w none s).response.record = none ∧
      (UserService1.createTransaction env w none s).transactions = s ∧
      (UserService1.createTransaction env w none s).published = none) ∧
    ((UserService2.createTransaction none s).1.status = 400 ∧
      (UserService2.createTransaction none s).1.record = none ∧
      (UserService2.createTransaction none s).2 = s) :=
  ⟨⟨rfl, rfl, rfl, rfl⟩, ⟨rfl, rfl, rfl⟩⟩

theorem publishTransactionEvent_event (env : UserService1.Env)
    (w : Option UserService1.Writer) (eventType : String) (txn : transaction) :
    (UserService1.publishTransactionEvent env w eventType txn).event
      = { EventType := eventType, Transaction := txn, ServiceID := "user-service-2",
          Timestamp := GoTime.formatRFC3339 env.publishNow } := by
  unfold UserService1.publishTransactionEvent
  simp only []
  generalize env.marshal _ = m
  cases m with
  | error err => rfl
  | ok bytes =>
    cases w with
    | none => rfl
    | some writer =>
      simp only []
      generalize env.writeMessages _ _ = r
      cases r <;> rfl

theorem publishTransactionEvent_message (env : UserService1.Env)
    (w : Option UserService1.Writer) (eventType : String) (txn : transaction) :
    (UserService1.publishTransactionEvent env w eventType txn).message
      = (match env.marshal
            { EventType := eventType, Transaction := txn, ServiceID := "user-service-2",
              Timestamp := GoTime.formatRFC3339 env.publishNow } with
        | .ok bytes =>
          some { Key := txn.ID.toUTF8, Value := bytes,
                 Headers := [ { Key := "event-type", Value := eventType.toUTF8 },
                              { Key := "user-id", Value := (sprintfD txn.UserID).toUTF8 } ] }
        | .error _ => none) := by
  unfold UserService1.publishTransactionEvent
  simp only []
  generalize env.marshal _ = m
  cases m with
  | error err => rfl
  | ok bytes =>
    cases w with
    | none => rfl
    | some writer =>
      simp only []
      generalize env.writeMessages _ _ = r
      cases r <;> rfl

theorem publishTransactionEvent_finish (env : UserService1.Env)
    (w : Option UserService1.Writer) (eventType : String) (txn : transaction) :
    (UserService1.publishTransactionEvent env w eventType txn).finish
      = (match env.marshal
            { EventType := eventType, Transaction := txn, ServiceID := "user-service-2",
              Timestamp := GoTime.formatRFC3339 env.publishNow } with
        | .error err => .returned (some ("failed to marshal event: " ++ err))
        | .ok bytes =>
          match w with
          | none => .panicked
          | some writer =>
            .returned (env.writeMessages writer
              { Key := txn.ID.toUTF8, Value := bytes,
                Headers := [ { Key := "event-type", Value := eventType.toUTF8 },
                             { Key := "user-id", Value := (sprintfD txn.UserID).toUTF8 } ] })) := by
  unfold UserService1.publishTransactionEvent
  simp only []
  generalize env.marshal _ = m
  cases m with
  | error err => rfl
  | ok bytes =>
    cases w with
    | none => rfl
    | some writer =>
      simp only []
      generalize env.writeMessages _ _ = r
      cases r <;> rfl

/-- C6 (evaluation at the failing input): `kafkaWriter` is nil when a handler
runs. For every well-formed creation request whose envelope `json.Marshal`
encodes, `createTransaction` answers 201 and appends the record, and the
publication it starts does not return an error: the call through the nil
writer panics and the process ends. The same request with a writer that
`initKafkaWriter` would have set gets the same response and store, and the
publication returns what `WriteMessages` returns. -/
theorem publish_panics_on_nil_writer (env : UserService1.Env) (t : transaction)
    (s : List transaction) (bytes : ByteArray) :
    UserService1.kafkaWriter = none ∧
    (∃ rec,
      (UserService1.createTransaction { env with marshal := fun _ => .ok bytes }
          UserService1.kafkaWriter (some t) s).response
        = { status := 201, body := .transaction rec } ∧
      (UserService1.createTransaction { env with marshal := fun _ => .ok bytes }
          UserService1.kafkaWriter (some t) s).transactions = s ++ [rec]) ∧
    ((UserService1.createTransaction { env with marshal := fun _ => .ok bytes }
        UserService1.kafkaWriter (some t) s).published.map (fun p => p.finish))
      = some .panicked ∧
    (UserService1.createTransaction { env with marshal := fun _ => .ok bytes }
        UserService1.kafkaWriter (some t) s).processExits = true ∧
    (∀ brokers result,
      (UserService1.createTransaction
          { env with marshal := fun _ => .ok bytes, writeMessages := fun _ _ => result }
          (UserService1.initKafkaWriter brokers) (some t) s).response
        = (UserService1.createTransaction { env with marshal := fun _ => .ok bytes }
            UserService1.kafkaWriter (some t) s).response ∧
      (UserService1.createTransaction
          { env with marshal := fun _ => .ok bytes, writeMessages := fun _ _ => result }
          (UserService1.initKafkaWriter brokers) (some t) s).transactions
        = (UserService1.createTransaction { env with marshal := fun _ => .ok bytes }
            UserService1.kafkaWriter (some t) s).transactions ∧
      ((UserService1.createTransaction
          { env with marshal := fun _ => .ok bytes, writeMessages := fun _ _ => result }
          (UserService1.initKafkaWriter brokers) (some t) s).published.map (fun p => p.finish))
        = some (.returned result) ∧
      (UserService1.createTransaction
          { env with marshal := fun _ => .ok bytes, writeMessages := fun _ _ => result }
          (UserService1.initKafkaWriter brokers) (some t) s).processExits = false) := by
  refine ⟨rfl, ?_, rfl, rfl, fun _ result => by cases result <;> exact ⟨rfl, rfl, rfl, rfl⟩⟩
  obtain ⟨rec, -, hresp, hstore, -⟩ :=
    createTransaction1_record { env with marshal := fun _ => .ok bytes }
      UserService1.kafkaWriter t s
  exact ⟨rec, hresp, hstore⟩

/-- C9: for a well-formed request, the envelope that `publishTransactionEvent`
builds has event type "transaction_created" and embeds the record that
`createTransaction` stored; when `json.Marshal` encodes it, the message has the
UTF-8 bytes of the record's id as key, the encoding of that envelope as value,
and exactly the two headers `event-type`, carrying "transaction_created", and
`user-id`, carrying the UTF-8 bytes of a string that is the canonical decimal
numeral of the record's user id; when it does not, no message is built. -/
theorem published_message_shape (env : UserService1.Env) (w : Option UserService1.Writer)
    (t : transaction) (s : List transaction) :
    ∃ rec event userId,
      (UserService1.createTransaction env w (some t) s).transactions = s ++ [rec] ∧
      event = { EventType := "transaction_created", Transaction := rec,
                ServiceID := "user-service-2",
                Timestamp := GoTime.formatRFC3339 env.publishNow } ∧
      decimalValue userId = some rec.UserID ∧
      (UserService1.createTransaction env w (some t) s).published.map (fun p => p.event)
        = some event ∧
      (UserService1.createTransaction env w (some t) s).published.map (fun p => p.message)
        = some (match env.marshal event with
          | .ok bytes =>
            some { Key := rec.ID.toUTF8, Value := bytes,
                   Headers := [ { Key := "event-type", Value := "transaction_created".toUTF8 },
                                { Key := "user-id", Value := userId.toUTF8 } ] }
          | .error _ => none) := by
  obtain ⟨rec, -, -, hstore, hpub, -⟩ := createTransaction1_record env w t s
  refine ⟨rec, _, sprintfD rec.UserID, hstore, rfl, decimalValue_sprintfD rec.UserID, ?_, ?_⟩
  · rw [hpub, Option.map_some', publishTransactionEvent_event]
  · rw [hpub, Option.map_some', publishTransactionEvent_message]

theorem createAll_spec (w : Option UserService1.Writer)
    (reqs : List (UserService1.Env × transaction)) (s : List transaction) :
    ∃ recs : List transaction,
      (UserService1.createAll w reqs s).1
        = recs.map (fun rec => { status := 201, body := .transaction rec }) ∧
      (UserService1.createAll w reqs s).2 = s ++ recs ∧
      recs.length = reqs.length := by
  induction reqs generalizing s with
  | nil => exact ⟨[], rfl, by simp [UserService1.createAll], rfl⟩
  | cons r rest ih =>
    obtain ⟨env, t⟩ := r
    obtain ⟨rec, -, hresp, hstore, -⟩ := createTransaction1_record env w t s
    obtain ⟨recs, h1, h2, h3⟩ := ih (s ++ [rec])
    refine ⟨rec :: recs, ?_, ?_, ?_⟩
    · simp only [UserService1.createAll, hresp, hstore, h1, List.map_cons]
    · simp only [UserService1.createAll, hstore, h2, List.append_assoc, List.singleton_append]
    · simp [h3]

/-- C2 (amended): after any sequence of N successful creation requests handled
from the process's initial store, `getTransactions` returns 200 with the three
records the store starts with followed by the N created records (those of the
201 responses) in the order they were created: N + 3 records. -/
theorem list_after_creations (w : Option UserService1.Writer)
    (reqs : List (UserService1.Env × transaction)) :
    ∃ recs : List transaction,
      (UserService1.createAll w reqs UserService1.transactions).1
        = recs.map (fun rec => { status := 201, body := .transaction rec }) ∧
      recs.length = reqs.length ∧
      UserService1.getTransactions (UserService1.createAll w reqs UserService1.transactions).2
        = ({ status := 200, body := .transactions (UserService1.transactions ++ recs) },
            (UserService1.createAll w reqs UserService1.transactions).2) ∧
      (UserService1.transactions ++ recs).length = reqs.length + 3 := by
  obtain ⟨recs, h1, h2, h3⟩ := createAll_spec w reqs UserService1.transactions
  refine ⟨recs, h1, h3, ?_, ?_⟩
  · simp only [UserService1.getTransactions, h2]
  · rw [List.length_append, h3, Nat.add_comm]
    rfl

/-- Counterexample to C2 as stated: after one successful creation from the
initial store the list has four records, not one, and its first record is not
the created one. -/
theorem list_after_one_creation :
    [(exampleEnv, exampleRequest)].length = 1 ∧
    ((UserService1.getTransactions
        (UserService1.createAll UserService1.kafkaWriter [(exampleEnv, exampleRequest)]
          UserService1.transactions).2).1.records.map
      (fun ts => (ts.length, ts.head?.map (fun r => r.ID))))
      = some (4, some "b35d8def-0025-440f-9d0e-b0aab008a093") := by
  constructor <;> rfl

/-- C10 (evaluation at the failing input): `POST /transactions` with the
specification's example request stores a record with id "t1" and answers 201;
the following `GET /transactions/t1` matches no registered route and is
answered by the router's 404, not by the lookup handler. The only path that
reaches `transactionById` is the literal `/transactions/id`, which binds no
parameter, so the handler looks up the empty id. -/
theorem get_by_path_id_not_routed (env : UserService1.Env) (w : Option UserService1.Writer)
    (s : List transaction) :
    (∃ rec, rec.ID = "t1" ∧
      (UserService1.serve env w
          { method := "POST", path := "/transactions", bind := some exampleRequest } s).response
        = { status := 201, body := .transaction rec } ∧
      (UserService1.serve env w
          { method := "POST", path := "/transactions", bind := some exampleRequest } s).transactions
        = s ++ [rec]) ∧
    UserService1.serve env w { method := "GET", path := "/transactions/t1", bind := none }
        (UserService1.serve env w
          { method := "POST", path := "/transactions", bind := some exampleRequest } s).transactions
      = { response := { status := 404, body := .text "404 page not found" },
          transactions := (UserService1.serve env w
            { method := "POST", path := "/transactions", bind := some exampleRequest }
            s).transactions,
          published := none } ∧
    GoGin.route UserService1.routes "GET" "/transactions/id"
      = .handler .transactionById [] ∧
    GoGin.param [] "id" = "" := by
  have hpost : UserService1.serve env w
      { method := "POST", path := "/transactions", bind := some exampleRequest } s
      = UserService1.createTransaction env w (some exampleRequest) s := rfl
  obtain ⟨rec, hid, hresp, hstore, -⟩ := createTransaction1_record env w exampleRequest s
  rw [hpost]
  exact ⟨⟨rec, hid, hresp, hstore⟩, rfl, rfl, rfl⟩

end FTMS

/-! ## Timestamps -/

namespace FTMS

theorem formatRFC3339_ne_empty (unixNano : Nat) : GoTime.formatRFC3339 unixNano ≠ "" := by
  intro h
  have h2 := congrArg String.data h
  simp [GoTime.formatRFC3339] at h2

theorem truncation_bounds (began now sent : Nat) (h1 : began ≤ now) (h2 : now ≤ sent) :
    (began : Int) - 1000000000 < ((now / 1000000000 * 1000000000 : Nat) : Int) ∧
    ((now / 1000000000 * 1000000000 : Nat) : Int) ≤ (sent : Int) := by
  constructor <;> omega

/-- C5 (amended): for a well-formed creation request with an empty timestamp,
handled while the clock reads `env.now` (Unix nanoseconds, before the year
10000), with the request begun at `began ≤ env.now` and the response sent at
`sent ≥ env.now`: in user-service-1 the stored and returned record carries a
non-empty timestamp, the RFC 3339 rendering of that clock reading in UTC at
whole-second resolution, which denotes the reading truncated to the second, an
instant `t` with `began - 1 s < t ≤ sent`; user-service-2 assigns no timestamp
and stores and returns the record with its timestamp still empty. -/
theorem assigned_timestamp_bounds (env : UserService1.Env) (w : Option UserService1.Writer)
    (t : transaction) (s : List transaction) (began sent : Nat) (ht : t.Timestamp = "")
    (hb : began ≤ env.now) (hs : env.now ≤ sent) (hy : env.now < year10000) :
    (∃ rec inst,
      (UserService1.createTransaction env w (some t) s).response
        = { status := 201, body := .transaction rec } ∧
      (UserService1.createTransaction env w (some t) s).transactions = s ++ [rec] ∧
      rec.Timestamp ≠ "" ∧
      rec.Timestamp = GoTime.formatRFC3339 env.now ∧
      GoTime.parseRFC3339 rec.Timestamp = some inst ∧
      inst = ((env.now / 1000000000 * 1000000000 : Nat) : Int) ∧
      (began : Int) - 1000000000 < inst ∧ inst ≤ (sent : Int)) ∧
    (∃ rec,
      (UserService2.createTransaction (some t) s).1
        = { status := 201, body := .transaction rec } ∧
      (UserService2.createTransaction (some t) s).2 = s ++ [rec] ∧
      rec.Timestamp = "") := by
  obtain ⟨rec, -, hresp, hstore, -, hts, -⟩ := createTransaction1_record env w t s
  have hrec := hts ht
  obtain ⟨b1, b2⟩ := truncation_bounds began env.now sent hb hs
  refine ⟨⟨rec, _, hresp, hstore, ?_, hrec, ?_, rfl, b1, b2⟩, ⟨t, rfl, rfl, ht⟩⟩
  · rw [hrec]; exact formatRFC3339_ne_empty _
  · rw [hrec]; exact GoTime.parseRFC3339_formatRFC3339 env.now hy

/-- Witness of C5 (amended): the specification's example request, begun
182 microseconds before the clock is read and answered 818 microseconds
after. -/
theorem assigned_timestamp_bounds_witness :
    exampleRequest.Timestamp = "" ∧ 1756309377289000000 ≤ exampleEnv.now ∧
    exampleEnv.now ≤ 1756309377290000000 ∧ exampleEnv.now < year10000 ∧
    (∃ rec inst,
      (UserService1.createTransaction exampleEnv UserService1.kafkaWriter (some exampleRequest)
        UserService1.transactions).response = { status := 201, body := .transaction rec } ∧
      (UserService1.createTransaction exampleEnv UserService1.kafkaWriter (some exampleRequest)
        UserService1.transactions).transactions = UserService1.transactions ++ [rec] ∧
      rec.Timestamp ≠ "" ∧
      rec.Timestamp = GoTime.formatRFC3339 exampleEnv.now ∧
      GoTime.parseRFC3339 rec.Timestamp = some inst ∧
      inst = ((exampleEnv.now / 1000000000 * 1000000000 : Nat) : Int) ∧
      ((1756309377289000000 : Nat) : Int) - 1000000000 < inst ∧
      inst ≤ ((1756309377290000000 : Nat) : Int)) ∧
    (∃ rec,
      (UserService2.createTransaction (some exampleRequest) UserService1.transactions).1
        = { status := 201, body := .transaction rec } ∧
      (UserService2.createTransaction (some exampleRequest) UserService1.transactions).2
        = UserService1.transactions ++ [rec] ∧
      rec.Timestamp = "") :=
  ⟨by decide, by decide, by decide, by decide,
    assigned_timestamp_bounds exampleEnv UserService1.kafkaWriter exampleRequest
      UserService1.transactions 1756309377289000000 1756309377290000000
      (by decide) (by decide) (by decide) (by decide)⟩

/-- Counterexample to C5 as stated: the request begins at
2025-08-27T15:42:57.289000Z, the clock is read at 15:42:57.289182Z and the
response is sent at 15:42:57.290000Z; user-service-1 assigns
"2025-08-27T15:42:57Z", which denotes 15:42:57.000000Z, an instant before the
request began. In user-service-2 the same request is stored and returned with
its timestamp still empty. -/
theorem assigned_timestamp_before_request :
    (1756309377289000000 ≤ exampleEnv.now ∧ exampleEnv.now ≤ 1756309377290000000) ∧
    ((UserService1.createTransaction exampleEnv UserService1.kafkaWriter (some exampleRequest)
        UserService1.transactions).response.record.map (fun r => r.Timestamp))
      = some "2025-08-27T15:42:57Z" ∧
    GoTime.parseRFC3339 "2025-08-27T15:42:57Z" = some 1756309377000000000 ∧
    (1756309377000000000 : Int) < 1756309377289000000 ∧
    ((UserService2.createTransaction (some exampleRequest)
        UserService2.transactions).1.record.map (fun r => r.Timestamp)) = some "" := by
  refine ⟨by decide, by decide, by decide, by decide, by decide⟩

end FTMS
